import Mathlib

/-
Verification development for the contactjs gesture-recognition library.

The embedding follows the repository sources:
  - src/input-consts.ts : direction constants and the GestureState enumeration;
  - src/index.ts : the module exports and the PointerListener dispatcher
    (pointerdown / pointermove / pointerup / pointerleave / pointercancel
    handlers, recognizeGestures, addTouchListeners);
  - tests/gestures/test.js : the gesture demo page, used as evidence for the
    shape of emitted gesture event details.

The Contact tracker (contact.ts) and the concrete recognizers (gestures.ts)
are not part of the available sources; definitions standing in for them are
marked "Modelled from the spec:" and follow the specification text
(sections 3, 4.1, 4.2, 7 and 8).  Host-callback hooks (options.pointerdown
and friends) and DOM concerns (pointer capture) are outside the model.
-/

/-! ## Direction constants (src/input-consts.ts) -/

def DIRECTION_NONE : String := "0"

def DIRECTION_LEFT : String := "left"

def DIRECTION_RIGHT : String := "right"

def DIRECTION_UP : String := "up"

def DIRECTION_DOWN : String := "down"

def DIRECTION_HORIZONTAL : List String := [DIRECTION_LEFT, DIRECTION_RIGHT]

def DIRECTION_VERTICAL : List String := [DIRECTION_UP, DIRECTION_DOWN]

def DIRECTION_ALL : List String :=
  [DIRECTION_LEFT, DIRECTION_RIGHT, DIRECTION_UP, DIRECTION_DOWN]

/-- The set of direction-bucket values: DIRECTION_NONE together with
DIRECTION_ALL, exactly the string constants of src/input-consts.ts. -/
def allDirectionValues : List String := DIRECTION_NONE :: DIRECTION_ALL

/-- The GestureState enumeration of src/input-consts.ts, lines 18-21: it
declares exactly two members, Possible = "possible" and Blocked = "blocked". -/
inductive GestureState where
  | Possible
  | Blocked
deriving DecidableEq, Fintype

/-- The string value carried by each GestureState member in the source. -/
def GestureState.value : GestureState → String
  | .Possible => "possible"
  | .Blocked => "blocked"

/-- Modelled from the spec: the direction derivation (section 3; the geometry
code of contact.ts is not under src/).  A motion vector is quantized into the
dominant of the horizontal or vertical axis, and a zero-length vector maps to
the DIRECTION_NONE constant.  Coordinates are surface coordinates with y
growing downwards, so a positive dominant dy yields DIRECTION_DOWN. -/
def getDirection (dx dy : Int) : String :=
  if dx = 0 ∧ dy = 0 then DIRECTION_NONE
  else if dy.natAbs ≤ dx.natAbs then
    (if 0 < dx then DIRECTION_RIGHT else DIRECTION_LEFT)
  else
    (if 0 < dy then DIRECTION_DOWN else DIRECTION_UP)

/-! ## Gesture classes and PointerListener construction (src/index.ts) -/

/-- The six gesture classes exported by src/index.ts lines 22-29. -/
inductive GestureClassId where
  | Tap
  | Press
  | Pan
  | Pinch
  | Rotate
  | TwoFingerPan
deriving DecidableEq

/-- The gesture classes exported from index.ts, in export order. -/
def indexGestureExports : List GestureClassId :=
  [.Tap, .Press, .Pan, .Pinch, .Rotate, .TwoFingerPan]

/-- ALL_GESTURE_CLASSES of the PointerListener module (src/index.ts line 42):
the default recognizer classes, in declaration order. -/
def ALL_GESTURE_CLASSES : List GestureClassId :=
  [.Tap, .Pan, .Pinch, .Rotate, .TwoFingerPan]

/-- A JavaScript value supplied in options.supportedGestures, tagged by the
outcome of the typeof checks in the PointerListener constructor: a gesture
class (typeof "function"), an already-instantiated gesture (typeof "object"),
or anything else (carrying its typeof name). -/
inductive JSGestureValue where
  | ctor (g : GestureClassId)
  | inst (g : GestureClassId)
  | other (typeName : String)
deriving DecidableEq

/-- One iteration of the constructor loop of src/index.ts lines 68-83:
a function value is instantiated with new GestureClass(domElement), an object
value is used as-is, and any other value throws
"unsupported gesture type: " + typeof GestureClass. -/
def instantiateGesture (dom : Nat) (v : JSGestureValue) :
    Except String GestureClassId :=
  match v with
  | .ctor g => .ok g
  | .inst g => .ok g
  | .other t => .error (("unsupported gesture type: ") ++ t)

/-- The constructor loop over the supplied gesture list, pushing each
instantiated gesture in order; the first invalid entry throws. -/
def buildSupportedGestures (dom : Nat) :
    List JSGestureValue → Except String (List GestureClassId)
  | [] => .ok []
  | v :: vs =>
    match instantiateGesture dom v with
    | .error e => .error e
    | .ok g =>
      match buildSupportedGestures dom vs with
      | .error e => .error e
      | .ok gs => .ok (g :: gs)

/-- PointerListener construction (src/index.ts lines 54-83): when the options
carry no supportedGestures key the default ALL_GESTURE_CLASSES (as class
values) is used; the chosen list is then instantiated in order.  Construction
happens before any input handler can run, so an error here precedes all input
processing. -/
def pointerListenerConstruct (dom : Nat)
    (supportedGestures : Option (List JSGestureValue)) :
    Except String (List GestureClassId) :=
  match supportedGestures with
  | none => buildSupportedGestures dom (ALL_GESTURE_CLASSES.map JSGestureValue.ctor)
  | some gs => buildSupportedGestures dom gs

/-! ## Gesture event detail shape (tests/gestures/test.js) -/

/-- The pairs (top-level field, sub-field) dereferenced on gesture event
details by tests/gestures/test.js: lines 62 and 132
(detail.pointerManager.activePointerInput), lines 220-224
(detail.recognizer.eventBaseName, detail.recognizer.isSwipe), line 236 and
lines 248-253 (detail.global and detail.live deltas and direction), line 393
(detail.global.scale) and line 421 (detail.global.rotation). -/
def testDetailAccessPaths : List (String × String) :=
  [("pointerManager", "activePointerInput"),
   ("recognizer", "eventBaseName"),
   ("recognizer", "isSwipe"),
   ("global", "deltaX"), ("global", "deltaY"), ("global", "direction"),
   ("global", "scale"), ("global", "rotation"),
   ("live", "deltaX"), ("live", "deltaY"), ("live", "direction")]

/-- The event-detail top-level field list written exactly as the
specification words it (section 3), kept for comparison against the shape the
repository code exhibits. -/
def specEventDetailFields : List String :=
  ["global", "live", "recognizer", "contactTracker"]

/-- The gesture event detail top-level fields as evidenced by
tests/gestures/test.js (the emitting code, gestures.ts, is not under src/):
the test dereferences detail.global, detail.live, detail.recognizer and
detail.pointerManager; the tracker field is named pointerManager. -/
def gestureEventDetailFields : List String :=
  ["global", "live", "recognizer", "pointerManager"]

/-- Sub-fields of each detail field: motion payloads per section 3 of the
spec, recognizer per the spec and the test, and the tracker sub-fields
activePointerInput (test.js lines 62 and 132) and hasPointersOnSurface
(test.js line 54, reached through the listener's pointerManager). -/
def detailSubfields : String → List String
  | "global" => ["deltaX", "deltaY", "distance", "direction", "scale", "rotation"]
  | "live" => ["deltaX", "deltaY", "distance", "direction", "scale", "rotation"]
  | "recognizer" => ["eventBaseName", "isSwipe", "state"]
  | "pointerManager" => ["activePointerInput", "hasPointersOnSurface"]
  | _ => []

/-- A detail access pair is valid when its top-level field exists and its
sub-field belongs to that field. -/
def detailPathOk (p : String × String) : Bool :=
  (gestureEventDetailFields.contains p.1) && ((detailSubfields p.1).contains p.2)

/-! ## Pointer samples and the Contact tracker -/

/-- A pointer sample: opaque id, surface coordinates and timestamp
(spec section 3). -/
structure PointerSample where
  pid : Nat
  x : Int
  y : Int
  ts : Nat
deriving DecidableEq

/-- Modelled from the spec: the per-pointer record of a Contact
(section 3; contact.ts is not under src/): the first sample at gesture
start, the previous sample and the current sample. -/
structure PointerEntry where
  first : PointerSample
  prev : PointerSample
  curr : PointerSample
deriving DecidableEq

/-- Modelled from the spec: the Contact (sections 3 and 4.1; contact.ts is
not under src/): a mapping from pointer id to its samples, plus the start
time; the Contact is active iff it holds at least one pointer id. -/
structure Contact where
  pointers : List (Nat × PointerEntry)
  startTime : Nat
deriving DecidableEq

/-- A Contact is active iff it holds at least one pointer id (spec
section 3 invariant). -/
def Contact.isActive (c : Contact) : Bool := !c.pointers.isEmpty

/-- Whether the given pointer id is currently registered. -/
def Contact.hasPointer (c : Contact) (id : Nat) : Bool :=
  c.pointers.any (fun p => p.1 == id)

/-- new Contact(event): a fresh Contact whose single pointer has the
triggering sample as first, previous and current sample, and whose start
time is the sample's timestamp (spec sections 3 and 4.1). -/
def Contact.mk1 (s : PointerSample) : Contact :=
  { pointers := [(s.pid, { first := s, prev := s, curr := s })],
    startTime := s.ts }

/-- Modelled from the spec: addPointer (section 4.1): registers a new
pointer id with the sample as its start; fails silently (no-op) if the id
already exists. -/
def Contact.addPointer (c : Contact) (s : PointerSample) : Contact :=
  if c.hasPointer s.pid then c
  else { c with
          pointers := c.pointers ++ [(s.pid, { first := s, prev := s, curr := s })] }

/-- Modelled from the spec: updatePointer (section 4.1): overwrites the
current sample for an existing id, preserving the prior sample as previous;
no-op if the id is unknown. -/
def Contact.updatePointer (c : Contact) (s : PointerSample) : Contact :=
  { c with
      pointers := c.pointers.map (fun p =>
        if p.1 = s.pid then (p.1, { p.2 with prev := p.2.curr, curr := s }) else p) }

/-- Modelled from the spec: removePointer (section 4.1): marks the id
inactive; the Contact becomes inactive when the last id is removed; no-op
for an unknown id (section 7). -/
def Contact.removePointer (c : Contact) (id : Nat) : Contact :=
  { c with pointers := c.pointers.filter (fun p => p.1 != id) }

/-- Modelled from the spec: cancel (section 4.1): force-clears all pointers
immediately, bypassing normal removal. -/
def Contact.cancel (c : Contact) : Contact := { c with pointers := [] }

/-- Modelled from the spec: the Contact's pointermove processing updates the
moved pointer's sample (section 4.1 updatePointer). -/
def Contact.onPointerMove (c : Contact) (s : PointerSample) : Contact :=
  c.updatePointer s

/-- Modelled from the spec: the Contact's pointerup processing removes the
lifted pointer id (section 4.1 removePointer). -/
def Contact.onPointerUp (c : Contact) (s : PointerSample) : Contact :=
  c.removePointer s.pid

/-- Modelled from the spec: pointerleave is processed like a removal of the
leaving pointer (sections 4.1 and 6). -/
def Contact.onPointerLeave (c : Contact) (s : PointerSample) : Contact :=
  c.removePointer s.pid

/-- Modelled from the spec: pointercancel force-clears the Contact
(section 4.1 cancel). -/
def Contact.onPointerCancel (c : Contact) (s : PointerSample) : Contact :=
  c.cancel

/-! ## Recognizers and the dispatcher (src/index.ts PointerListener) -/

/-- Modelled from the spec: the recognizer lifecycle states of section 4.2
(gestures.ts is not under src/). -/
inductive RecPhase where
  | Possible
  | Began
  | Changed
  | Ended
  | Cancelled
  | Failed
  | Blocked
deriving DecidableEq

/-- Modelled from the spec: the observable state of one recognizer
(gestures.ts is not under src/): its lifecycle phase, and the last Contact
snapshot it evaluated.  Per section 7 an input that leaves the Contact
unchanged is ignored (no-op) and per section 8 re-evaluating an unchanged
snapshot emits nothing, so the model keeps the last evaluated snapshot and
is silent and stationary on an unchanged one. -/
structure RecognizerState where
  phase : RecPhase
  lastSnap : Option Contact
deriving DecidableEq

/-- A family of recognizer transition functions, one per registration index:
given the current lifecycle phase and a changed Contact snapshot, produce the
next phase and the emitted gesture event names. -/
def TransFun : Type :=
  Nat → RecPhase → Contact → RecPhase × List String

/-- Modelled from the spec: one recognizer evaluation (section 4.2
evaluate).  An unchanged snapshot leaves the recognizer unchanged and emits
nothing (sections 7 and 8); a changed snapshot is fed to the recognizer's
transition function and recorded. -/
def recognizeOne (f : RecPhase → Contact → RecPhase × List String)
    (r : RecognizerState) (c : Contact) : RecognizerState × List String :=
  if r.lastSnap = some c then (r, [])
  else ({ phase := (f r.phase c).1, lastSnap := some c }, (f r.phase c).2)

/-- An observable dispatcher action: a Contact-tracker update with a sample,
the evaluation of the recognizer at a registration index, or the forwarding
of a raw touch-move notification to the recognizer at an index. -/
inductive DispatchAction where
  | trackerUpdate (s : PointerSample)
  | recognize (g : Nat)
  | touchForward (g : Nat) (ev : Nat)
deriving DecidableEq

/-- The recognizeGestures loop of src/index.ts lines 242-252, starting at
registration index i: each recognizer in list order is evaluated once
against the current Contact; evaluations are recorded in the trace. -/
def recognizeGesturesAux (t : TransFun) (i : Nat)
    (rs : List RecognizerState) (c : Contact) :
    List RecognizerState × List String × List DispatchAction :=
  match rs with
  | [] => ([], [], [])
  | r :: rest =>
    ((recognizeOne (t i) r c).1 :: (recognizeGesturesAux t (i + 1) rest c).1,
     (recognizeOne (t i) r c).2 ++ (recognizeGesturesAux t (i + 1) rest c).2.1,
     DispatchAction.recognize i :: (recognizeGesturesAux t (i + 1) rest c).2.2)

/-- recognizeGestures (src/index.ts lines 242-252): run all configured
recognizers, in registration order, against the current Contact. -/
def recognizeGestures (t : TransFun) (rs : List RecognizerState) (c : Contact) :
    List RecognizerState × List String × List DispatchAction :=
  recognizeGesturesAux t 0 rs c

/-- The PointerListener state: the Contact instance (null outside an active
pointerdown, src/index.ts line 96) and the registered recognizers. -/
structure ListenerState where
  contact : Option Contact
  recognizers : List RecognizerState
deriving DecidableEq

/-- The outcome of one input handler invocation: the next listener state,
the gesture event names emitted during it, and the trace of dispatcher
actions it performed. -/
structure StepResult where
  state : ListenerState
  events : List String
  trace : List DispatchAction
deriving DecidableEq

/-- The input phases consumed from the host surface (spec section 6). -/
inductive InputPhase where
  | down
  | move
  | up
  | leave
  | cancel
deriving DecidableEq

/-- One input sample tagged with its phase. -/
structure InputEvent where
  phase : InputPhase
  sample : PointerSample
deriving DecidableEq

/-- The outcome of a guarded handler body on an active Contact: the updated
Contact is stored, recognizeGestures runs over all recognizers against it,
and the trace records the tracker update followed by the evaluations. -/
def activeStepResult (t : TransFun) (rs : List RecognizerState)
    (c' : Contact) (s : PointerSample) : StepResult :=
  { state := { contact := some c', recognizers := (recognizeGestures t rs c').1 },
    events := (recognizeGestures t rs c').2.1,
    trace := DispatchAction.trackerUpdate s :: (recognizeGestures t rs c').2.2 }

/-- The five input handlers installed by the PointerListener constructor
(src/index.ts lines 106-201), faithful to the source:
pointerdown creates a Contact when none is active, otherwise adds the
pointer to the existing Contact, and does not run the recognizers;
pointermove, pointerup and pointerleave are guarded by
contact != null && contact.isActive, update the Contact, then run
recognizeGestures; pointercancel has no such guard and dereferences
self.contact unconditionally, which throws a TypeError when the contact is
still null. -/
def processEvent (t : TransFun) (st : ListenerState) (e : InputEvent) :
    Except String StepResult :=
  match e.phase with
  | .down =>
    match st.contact with
    | none =>
      .ok { state := { st with contact := some (Contact.mk1 e.sample) },
            events := [], trace := [DispatchAction.trackerUpdate e.sample] }
    | some c =>
      if c.isActive then
        .ok { state := { st with contact := some (c.addPointer e.sample) },
              events := [], trace := [DispatchAction.trackerUpdate e.sample] }
      else
        .ok { state := { st with contact := some (Contact.mk1 e.sample) },
              events := [], trace := [DispatchAction.trackerUpdate e.sample] }
  | .move =>
    match st.contact with
    | none => .ok { state := st, events := [], trace := [] }
    | some c =>
      if c.isActive then
        .ok (activeStepResult t st.recognizers (c.onPointerMove e.sample) e.sample)
      else .ok { state := st, events := [], trace := [] }
  | .up =>
    match st.contact with
    | none => .ok { state := st, events := [], trace := [] }
    | some c =>
      if c.isActive then
        .ok (activeStepResult t st.recognizers (c.onPointerUp e.sample) e.sample)
      else .ok { state := st, events := [], trace := [] }
  | .leave =>
    match st.contact with
    | none => .ok { state := st, events := [], trace := [] }
    | some c =>
      if c.isActive then
        .ok (activeStepResult t st.recognizers (c.onPointerLeave e.sample) e.sample)
      else .ok { state := st, events := [], trace := [] }
  | .cancel =>
    match st.contact with
    | none =>
      .error ("TypeError: Cannot read properties of null (reading onPointerCancel)")
    | some c =>
      .ok (activeStepResult t st.recognizers (c.onPointerCancel e.sample) e.sample)

/-- Processing of a whole input sequence; an error aborts processing. -/
def processEvents (t : TransFun) (st : ListenerState) :
    List InputEvent → Except String ListenerState
  | [] => .ok st
  | e :: es =>
    match processEvent t st e with
    | .error m => .error m
    | .ok r => processEvents t r.state es

/-- Fresh recognizer states: lifecycle Possible, nothing evaluated yet. -/
def initialRecognizers (n : Nat) : List RecognizerState :=
  List.replicate n { phase := .Possible, lastSnap := none }

/-- The listener state right after construction: this.contact = null
(src/index.ts line 96) and n freshly instantiated recognizers. -/
def initialListenerState (n : Nat) : ListenerState :=
  { contact := none, recognizers := initialRecognizers n }

/-- The touchmove listener of addTouchListeners (src/index.ts lines
210-239): when handleTouchEvents is set, every raw touch-move notification
is forwarded to each registered gesture via gesture.onTouchMove(event),
without touching the Contact and without running recognizeGestures; when it
is not set, no touch listener is installed at all. -/
def onTouchMove (handleTouchEvents : Bool) (st : ListenerState) (ev : Nat) :
    ListenerState × List DispatchAction :=
  if handleTouchEvents then
    (st, (List.range st.recognizers.length).map (fun g => DispatchAction.touchForward g ev))
  else (st, [])

/-! ## Concrete fixtures used by witnesses and counterexamples -/

/-- A transition family for concrete evaluations: every recognizer keeps its
phase and emits nothing on a changed snapshot. -/
def trivialTrans : TransFun := fun _ p _ => (p, [])

/-- A concrete sample of pointer id 1 at the origin. -/
def sampleA : PointerSample := { pid := 1, x := 0, y := 0, ts := 0 }

/-- A concrete sample of pointer id 2, unknown to contactA. -/
def sampleB : PointerSample := { pid := 2, x := 5, y := 5, ts := 10 }

/-- A concrete sample of pointer id 1 after some motion. -/
def sampleC : PointerSample := { pid := 1, x := 7, y := 7, ts := 20 }

/-- A concrete active Contact holding pointer id 1 only. -/
def contactA : Contact :=
  { pointers := [(1, { first := sampleA, prev := sampleA, curr := sampleA })],
    startTime := 0 }

/-- A listener state in steady state: the Contact is contactA and the single
registered recognizer has already evaluated exactly that snapshot. -/
def steadyState : ListenerState :=
  { contact := some contactA,
    recognizers := [{ phase := .Possible, lastSnap := some contactA }] }

/-! ## Helper lemmas -/

lemma map_update_id (s : PointerSample) :
    ∀ ps : List (Nat × PointerEntry), ps.any (fun p => p.1 == s.pid) = false →
      ps.map (fun p =>
        if p.1 = s.pid then (p.1, { p.2 with prev := p.2.curr, curr := s }) else p) = ps := by
  intro ps
  induction ps with
  | nil => intro _; rfl
  | cons hd tl ih =>
    intro h
    simp only [List.any_cons, Bool.or_eq_false_iff, beq_eq_false_iff_ne, ne_eq] at h
    simp [ih (by simpa using h.2), h.1]

lemma filter_ne_id (id : Nat) :
    ∀ ps : List (Nat × PointerEntry), ps.any (fun p => p.1 == id) = false →
      ps.filter (fun p => p.1 != id) = ps := by
  intro ps
  induction ps with
  | nil => intro _; rfl
  | cons hd tl ih =>
    intro h
    simp only [List.any_cons, Bool.or_eq_false_iff, beq_eq_false_iff_ne, ne_eq] at h
    simp [List.filter_cons, ih (by simpa using h.2), h.1]

lemma updatePointer_no_op (c : Contact) (s : PointerSample)
    (h : c.hasPointer s.pid = false) : c.updatePointer s = c := by
  obtain ⟨ps, st0⟩ := c
  simp only [Contact.hasPointer] at h
  simp only [Contact.updatePointer, Contact.mk.injEq, and_true]
  exact map_update_id s ps h

lemma removePointer_no_op (c : Contact) (id : Nat)
    (h : c.hasPointer id = false) : c.removePointer id = c := by
  obtain ⟨ps, st0⟩ := c
  simp only [Contact.hasPointer] at h
  simp only [Contact.removePointer, Contact.mk.injEq, and_true]
  exact filter_ne_id id ps h

lemma recognizeGesturesAux_steady (t : TransFun) (c : Contact) :
    ∀ (rs : List RecognizerState) (i : Nat), (∀ r ∈ rs, r.lastSnap = some c) →
      recognizeGesturesAux t i rs c =
        (rs, [], (List.range' i rs.length).map DispatchAction.recognize) := by
  intro rs
  induction rs with
  | nil => intro i _; rfl
  | cons r rest ih =>
    intro i h
    have hr : r.lastSnap = some c := h r (by simp)
    have hrest := ih (i + 1) (fun x hx => h x (by simp [hx]))
    simp [recognizeGesturesAux, recognizeOne, hr, hrest, List.range']

lemma recognizeGesturesAux_trace (t : TransFun) (c : Contact) :
    ∀ (rs : List RecognizerState) (i : Nat),
      (recognizeGesturesAux t i rs c).2.2 =
        (List.range' i rs.length).map DispatchAction.recognize := by
  intro rs
  induction rs with
  | nil => intro i; rfl
  | cons r rest ih =>
    intro i
    simp [recognizeGesturesAux, List.range', ih (i + 1)]

lemma buildSupportedGestures_error (dom : Nat) (tn : String) :
    ∀ gs : List JSGestureValue, JSGestureValue.other tn ∈ gs →
      ∃ msg, buildSupportedGestures dom gs = Except.error msg := by
  intro gs
  induction gs with
  | nil => intro h; cases h
  | cons v vs ih =>
    intro h
    cases v with
    | ctor g =>
      have hm : JSGestureValue.other tn ∈ vs := by
        rcases List.mem_cons.mp h with h1 | h2
        · exact absurd h1 (by simp)
        · exact h2
      obtain ⟨msg, hmsg⟩ := ih hm
      exact ⟨msg, by simp [buildSupportedGestures, instantiateGesture, hmsg]⟩
    | inst g =>
      have hm : JSGestureValue.other tn ∈ vs := by
        rcases List.mem_cons.mp h with h1 | h2
        · exact absurd h1 (by simp)
        · exact h2
      obtain ⟨msg, hmsg⟩ := ih hm
      exact ⟨msg, by simp [buildSupportedGestures, instantiateGesture, hmsg]⟩
    | other t2 =>
      exact ⟨("unsupported gesture type: ") ++ t2,
        by simp [buildSupportedGestures, instantiateGesture]⟩

/-! ## Claim theorems -/

/-- C1 counterexample: the claim says the recognizer state type comprises
exactly seven states, but the GestureState enumeration of
src/input-consts.ts has exactly two inhabitants, so it cannot have seven. -/
theorem C1_counterexample :
    Fintype.card GestureState = 2 ∧ Fintype.card GestureState ≠ 7 := by
  constructor
  · decide
  · decide

/-- C1 (amended): the recognizer state type GestureState exposed by the
source comprises exactly the two states Possible (value "possible") and
Blocked (value "blocked"), so every state field of this type holds one of
these two values. -/
theorem C1_theorem :
    Fintype.card GestureState = 2 ∧
    (∀ s : GestureState, s = GestureState.Possible ∨ s = GestureState.Blocked) ∧
    GestureState.value GestureState.Possible = "possible" ∧
    GestureState.value GestureState.Blocked = "blocked" := by
  refine ⟨by decide, by decide, rfl, rfl⟩

/-- C2 counterexample: the spec names the tracker field of the event detail
contactTracker, but the repository's test dereferences
detail.pointerManager.activePointerInput on emitted gesture events and never
touches a contactTracker field; the detail shape exhibited by the code has
pointerManager, not contactTracker. -/
theorem C2_counterexample :
    ("contactTracker" ∈ specEventDetailFields) ∧
    ("contactTracker" ∉ gestureEventDetailFields) ∧
    (testDetailAccessPaths.all (fun p => p.1 != "contactTracker") = true) ∧
    (("pointerManager", "activePointerInput") ∈ testDetailAccessPaths) := by
  decide

/-- C2 (amended): every gesture event detail field access performed by the
repository's test is covered by the detail shape with fields global, live,
recognizer (eventBaseName, isSwipe, state) and pointerManager
(activePointerInput, hasPointersOnSurface). -/
theorem C2_theorem :
    testDetailAccessPaths.all detailPathOk = true ∧
    gestureEventDetailFields = ["global", "live", "recognizer", "pointerManager"] ∧
    detailSubfields ("recognizer") = ["eventBaseName", "isSwipe", "state"] ∧
    detailSubfields ("pointerManager") = ["activePointerInput", "hasPointersOnSurface"] := by
  refine ⟨by decide, rfl, rfl, rfl⟩

/-- C3 counterexample: the claim says a zero-length motion vector derives
the value "none", but the source constant DIRECTION_NONE is the string "0",
so the derived bucket of the zero vector is "0", not "none". -/
theorem C3_counterexample :
    DIRECTION_NONE = "0" ∧ DIRECTION_NONE ≠ "none" ∧
    getDirection 0 0 = DIRECTION_NONE ∧ getDirection 0 0 ≠ "none" := by
  refine ⟨rfl, by decide, rfl, by decide⟩

/-- C3 (amended): the direction bucket has exactly five values -
DIRECTION_NONE (the string "0"), "left", "right", "up" and "down" - every
derived direction is one of them, every zero-length motion vector derives
DIRECTION_NONE, and each of the four axis buckets is attained. -/
theorem C3_theorem :
    allDirectionValues.length = 5 ∧ allDirectionValues.Nodup ∧
    (∀ dx dy : Int, getDirection dx dy ∈ allDirectionValues) ∧
    getDirection 0 0 = DIRECTION_NONE ∧
    getDirection 3 1 = DIRECTION_RIGHT ∧ getDirection (-3) 1 = DIRECTION_LEFT ∧
    getDirection 1 (-3) = DIRECTION_UP ∧ getDirection 1 3 = DIRECTION_DOWN := by
  refine ⟨by decide, by decide, ?_, by decide, by decide, by decide, by decide, by decide⟩
  intro dx dy
  unfold getDirection
  split_ifs <;> decide

/-- C7: the code violates the claim. The pointercancel handler of
src/index.ts lines 182-201 dereferences self.contact without the
null/isActive guard every other handler has, so a cancel sample delivered
right after construction (while this.contact is still null) raises a
TypeError to the host instead of being absorbed. -/
theorem C7_theorem : ∀ (t : TransFun) (n : Nat) (s : PointerSample),
    processEvents t (initialListenerState n)
        [{ phase := InputPhase.cancel, sample := s }] =
      Except.error ("TypeError: Cannot read properties of null (reading onPointerCancel)") := by
  intro t n s
  rfl

/-- C8: constructing a PointerListener whose supportedGestures option holds
an entry that is neither a function (gesture class) nor an object (gesture
instance) makes the constructor loop throw "unsupported gesture type: ..."
- at construction time, before any input sample can be processed. -/
theorem C8_theorem (dom : Nat) (gs : List JSGestureValue) (tn : String)
    (h : JSGestureValue.other tn ∈ gs) :
    ∃ msg, pointerListenerConstruct dom (some gs) = Except.error msg :=
  buildSupportedGestures_error dom tn gs h

/-- C8 witness: a supportedGestures list holding a string entry after a
valid gesture class makes construction fail. -/
theorem C8_witness :
    ∃ msg, pointerListenerConstruct 0
        (some [JSGestureValue.ctor GestureClassId.Tap, JSGestureValue.other ("string")]) =
      Except.error msg :=
  C8_theorem 0 _ ("string") (by decide)

/-- C10: with no explicit supportedGestures option, construction registers
exactly the classes Tap, Pan, Pinch, Rotate, TwoFingerPan in that order
(ALL_GESTURE_CLASSES of src/index.ts line 42), while Press is exported by
index.ts but is not part of the default set. -/
theorem C10_theorem :
    pointerListenerConstruct 0 none =
      Except.ok [GestureClassId.Tap, GestureClassId.Pan, GestureClassId.Pinch,
        GestureClassId.Rotate, GestureClassId.TwoFingerPan] ∧
    GestureClassId.Press ∈ indexGestureExports ∧
    GestureClassId.Press ∉ ALL_GESTURE_CLASSES := by
  refine ⟨rfl, by decide, by decide⟩


lemma activeStepResult_trace (t : TransFun) (rs : List RecognizerState)
    (c' : Contact) (s : PointerSample) :
    (activeStepResult t rs c' s).trace =
      DispatchAction.trackerUpdate s ::
        (List.range rs.length).map DispatchAction.recognize := by
  simp only [activeStepResult, recognizeGestures]
  rw [recognizeGesturesAux_trace t c' rs 0, ← List.range_eq_range']

lemma activeStepResult_nodup (t : TransFun) (rs : List RecognizerState)
    (c' : Contact) (s : PointerSample) :
    (activeStepResult t rs c' s).trace.Nodup := by
  rw [activeStepResult_trace]
  refine List.nodup_cons.mpr ⟨by simp, ?_⟩
  exact (List.nodup_range rs.length).map (fun a b hab => by injection hab)

lemma activeStepResult_mem (t : TransFun) (rs : List RecognizerState)
    (c' : Contact) (s : PointerSample) :
    ∀ i, DispatchAction.recognize i ∈ (activeStepResult t rs c' s).trace ↔
      i < rs.length := by
  intro i
  rw [activeStepResult_trace]
  simp

lemma activeStepResult_steady (t : TransFun) (rs : List RecognizerState)
    (c : Contact) (s : PointerSample)
    (hsteady : ∀ r ∈ rs, r.lastSnap = some c) :
    activeStepResult t rs c s =
      { state := { contact := some c, recognizers := rs }, events := [],
        trace := DispatchAction.trackerUpdate s ::
          (List.range' 0 rs.length).map DispatchAction.recognize } := by
  simp only [activeStepResult, recognizeGestures]
  rw [recognizeGesturesAux_steady t c rs 0 hsteady]

/-- C4 counterexample: a pointer-down sample, processed while one recognizer
is registered and a Contact is active, updates the Contact tracker but
evaluates no recognizer at all (the pointerdown handler of src/index.ts
lines 106-125 never calls recognizeGestures), contradicting "the registered
recognizers are then each evaluated exactly once". -/
theorem C4_counterexample :
    processEvent trivialTrans steadyState
        { phase := InputPhase.down, sample := sampleB } =
      Except.ok { state := { steadyState with contact := some (contactA.addPointer sampleB) },
                  events := [], trace := [DispatchAction.trackerUpdate sampleB] } ∧
    steadyState.recognizers.length = 1 ∧
    DispatchAction.recognize 0 ∉ [DispatchAction.trackerUpdate sampleB] := by
  refine ⟨rfl, rfl, by decide⟩

/-- C4 (amended): for every move, up, leave or cancel sample processed while
a Contact is active, the Contact tracker is updated with the sample strictly
before any recognizer evaluates it (the tracker update heads the dispatch
trace), and the registered recognizers are then each evaluated exactly once,
in registration order; a pointer-down sample updates the tracker but
triggers no recognizer evaluation. -/
theorem C4_theorem (t : TransFun) (st : ListenerState) (s : PointerSample)
    (c : Contact) (ph : InputPhase)
    (hc : st.contact = some c) (hact : c.isActive = true) :
    (ph ≠ InputPhase.down →
      ∃ r, processEvent t st { phase := ph, sample := s } = Except.ok r ∧
        r.trace = DispatchAction.trackerUpdate s ::
          (List.range st.recognizers.length).map DispatchAction.recognize ∧
        r.trace.Nodup ∧
        (∀ i, DispatchAction.recognize i ∈ r.trace ↔ i < st.recognizers.length))
    ∧ processEvent t st { phase := InputPhase.down, sample := s } =
        Except.ok { state := { st with contact := some (c.addPointer s) },
                    events := [], trace := [DispatchAction.trackerUpdate s] } := by
  obtain ⟨oc, rs⟩ := st
  replace hc : oc = some c := hc
  subst hc
  constructor
  · intro hph
    cases ph with
    | down => exact absurd rfl hph
    | move =>
      exact ⟨activeStepResult t rs (c.onPointerMove s) s,
        by simp [processEvent, hact],
        activeStepResult_trace t rs (c.onPointerMove s) s,
        activeStepResult_nodup t rs (c.onPointerMove s) s,
        activeStepResult_mem t rs (c.onPointerMove s) s⟩
    | up =>
      exact ⟨activeStepResult t rs (c.onPointerUp s) s,
        by simp [processEvent, hact],
        activeStepResult_trace t rs (c.onPointerUp s) s,
        activeStepResult_nodup t rs (c.onPointerUp s) s,
        activeStepResult_mem t rs (c.onPointerUp s) s⟩
    | leave =>
      exact ⟨activeStepResult t rs (c.onPointerLeave s) s,
        by simp [processEvent, hact],
        activeStepResult_trace t rs (c.onPointerLeave s) s,
        activeStepResult_nodup t rs (c.onPointerLeave s) s,
        activeStepResult_mem t rs (c.onPointerLeave s) s⟩
    | cancel =>
      exact ⟨activeStepResult t rs (c.onPointerCancel s) s, rfl,
        activeStepResult_trace t rs (c.onPointerCancel s) s,
        activeStepResult_nodup t rs (c.onPointerCancel s) s,
        activeStepResult_mem t rs (c.onPointerCancel s) s⟩
  · simp [processEvent, hact]

/-- C4 witness: a move sample on the steady one-recognizer state yields the
tracker update followed by the single recognizer evaluation. -/
theorem C4_witness :
    ∃ r, processEvent trivialTrans steadyState
        { phase := InputPhase.move, sample := sampleC } = Except.ok r ∧
      r.trace = DispatchAction.trackerUpdate sampleC ::
        (List.range steadyState.recognizers.length).map DispatchAction.recognize := by
  obtain ⟨r, h1, h2, h3, h4⟩ :=
    (C4_theorem trivialTrans steadyState sampleC contactA InputPhase.move rfl rfl).1
      (by decide)
  exact ⟨r, h1, h2⟩

/-- C5: on a pointer-down sample, if no Contact is active (null or inactive)
a new Contact is created whose start is that sample; if a Contact is active,
the sample's pointer id is added to the existing Contact and no new Contact
is created (start time and existing pointer entries are preserved). -/
theorem C5_theorem (t : TransFun) (st : ListenerState) (s : PointerSample) :
    (st.contact = none →
      processEvent t st { phase := InputPhase.down, sample := s } =
        Except.ok { state := { st with contact := some (Contact.mk1 s) },
                    events := [], trace := [DispatchAction.trackerUpdate s] } ∧
      (Contact.mk1 s).startTime = s.ts ∧
      (Contact.mk1 s).pointers = [(s.pid, { first := s, prev := s, curr := s })] ∧
      (Contact.mk1 s).isActive = true) ∧
    (∀ c, st.contact = some c → c.isActive = false →
      processEvent t st { phase := InputPhase.down, sample := s } =
        Except.ok { state := { st with contact := some (Contact.mk1 s) },
                    events := [], trace := [DispatchAction.trackerUpdate s] }) ∧
    (∀ c, st.contact = some c → c.isActive = true →
      processEvent t st { phase := InputPhase.down, sample := s } =
        Except.ok { state := { st with contact := some (c.addPointer s) },
                    events := [], trace := [DispatchAction.trackerUpdate s] } ∧
      (c.addPointer s).hasPointer s.pid = true ∧
      (c.addPointer s).startTime = c.startTime ∧
      ∀ p ∈ c.pointers, p ∈ (c.addPointer s).pointers) := by
  obtain ⟨oc, rs⟩ := st
  refine ⟨?_, ?_, ?_⟩
  · intro h
    replace h : oc = none := h
    subst h
    exact ⟨rfl, rfl, rfl, rfl⟩
  · intro c hc hact
    replace hc : oc = some c := hc
    subst hc
    simp [processEvent, hact]
  · intro c hc hact
    replace hc : oc = some c := hc
    subst hc
    refine ⟨by simp [processEvent, hact], ?_, ?_, ?_⟩
    · unfold Contact.addPointer
      split_ifs with hhas
      · exact hhas
      · simp [Contact.hasPointer, List.any_append]
    · unfold Contact.addPointer
      split_ifs <;> rfl
    · intro p hp
      unfold Contact.addPointer
      split_ifs
      · exact hp
      · simp [hp]

/-- C5 witness: a down sample on the fresh listener creates a Contact from
that sample, and a down sample of a new pointer id on an active Contact adds
the id while preserving the start time. -/
theorem C5_witness :
    (processEvent trivialTrans (initialListenerState 1)
        { phase := InputPhase.down, sample := sampleA } =
      Except.ok { state := { initialListenerState 1 with contact := some (Contact.mk1 sampleA) },
                  events := [], trace := [DispatchAction.trackerUpdate sampleA] }) ∧
    (processEvent trivialTrans steadyState
        { phase := InputPhase.down, sample := sampleB } =
      Except.ok { state := { steadyState with contact := some (contactA.addPointer sampleB) },
                  events := [], trace := [DispatchAction.trackerUpdate sampleB] }) ∧
    (contactA.addPointer sampleB).hasPointer sampleB.pid = true ∧
    (contactA.addPointer sampleB).startTime = contactA.startTime := by
  refine ⟨((C5_theorem trivialTrans (initialListenerState 1) sampleA).1 rfl).1, ?_, ?_, ?_⟩
  · exact ((C5_theorem trivialTrans steadyState sampleB).2.2 contactA rfl rfl).1
  · exact ((C5_theorem trivialTrans steadyState sampleB).2.2 contactA rfl rfl).2.1
  · exact ((C5_theorem trivialTrans steadyState sampleB).2.2 contactA rfl rfl).2.2.1

/-- C6: a move, up or leave sample whose pointer id is unknown is a no-op:
when no Contact exists or it is inactive the handler guard skips everything;
when a Contact is active, the Contact is unchanged (updatePointer and
removePointer are no-ops for unknown ids) and the recognizers, having
already evaluated exactly this snapshot, stay unchanged and emit nothing;
in all cases no error is raised. -/
theorem C6_theorem (t : TransFun) (st : ListenerState) (e : InputEvent)
    (hph : e.phase = InputPhase.move ∨ e.phase = InputPhase.up ∨
      e.phase = InputPhase.leave) :
    (st.contact = none →
      processEvent t st e = Except.ok { state := st, events := [], trace := [] }) ∧
    (∀ c, st.contact = some c → c.isActive = false →
      processEvent t st e = Except.ok { state := st, events := [], trace := [] }) ∧
    (∀ c, st.contact = some c → c.isActive = true →
      c.hasPointer e.sample.pid = false →
      (∀ r ∈ st.recognizers, r.lastSnap = some c) →
      ∃ tr, processEvent t st e =
        Except.ok { state := st, events := [], trace := tr }) := by
  obtain ⟨oc, rs⟩ := st
  obtain ⟨ph, s⟩ := e
  replace hph : ph = InputPhase.move ∨ ph = InputPhase.up ∨
    ph = InputPhase.leave := hph
  refine ⟨?_, ?_, ?_⟩
  · intro h
    replace h : oc = none := h
    subst h
    rcases hph with h1 | h1 | h1 <;> rw [h1] <;> rfl
  · intro c hc hact
    replace hc : oc = some c := hc
    subst hc
    rcases hph with h1 | h1 | h1 <;> rw [h1] <;> simp [processEvent, hact]
  · intro c hc hact hunk hsteady
    replace hc : oc = some c := hc
    subst hc
    replace hunk : c.hasPointer s.pid = false := hunk
    replace hsteady : ∀ r ∈ rs, r.lastSnap = some c := hsteady
    have hupd : c.updatePointer s = c := updatePointer_no_op c s hunk
    have hrem : c.removePointer s.pid = c := removePointer_no_op c s.pid hunk
    refine ⟨DispatchAction.trackerUpdate s ::
      (List.range' 0 rs.length).map DispatchAction.recognize, ?_⟩
    rcases hph with h1 | h1 | h1 <;> rw [h1] <;>
      simp [processEvent, hact, Contact.onPointerMove, Contact.onPointerUp,
        Contact.onPointerLeave, hupd, hrem,
        activeStepResult_steady t rs c s hsteady]

/-- C6 witness: a move sample of unknown pointer id 2 on the steady
one-pointer, one-recognizer state leaves the whole listener state unchanged
and emits nothing. -/
theorem C6_witness :
    ∃ tr, processEvent trivialTrans steadyState
        { phase := InputPhase.move, sample := sampleB } =
      Except.ok { state := steadyState, events := [], trace := tr } := by
  refine (C6_theorem trivialTrans steadyState
      { phase := InputPhase.move, sample := sampleB } (Or.inl rfl)).2.2
    contactA rfl rfl (by decide) ?_
  intro r hr
  simp only [steadyState, List.mem_singleton] at hr
  subst hr
  rfl

/-- C9: when touch-event handling is enabled, a raw touch-move notification
is forwarded verbatim (the same event value) to every registered recognizer
exactly once, the Contact tracker is not updated and gesture recognition is
not triggered (no trackerUpdate or recognize action occurs); when disabled,
nothing happens at all. -/
theorem C9_theorem (st : ListenerState) (ev : Nat) :
    onTouchMove true st ev =
      (st, (List.range st.recognizers.length).map
        (fun g => DispatchAction.touchForward g ev)) ∧
    (onTouchMove true st ev).1.contact = st.contact ∧
    (onTouchMove true st ev).1.recognizers = st.recognizers ∧
    ((onTouchMove true st ev).2.countP (fun a =>
      match a with
      | DispatchAction.touchForward _ _ => false
      | _ => true) = 0) ∧
    (onTouchMove true st ev).2.length = st.recognizers.length ∧
    (onTouchMove true st ev).2.Nodup ∧
    onTouchMove false st ev = (st, []) := by
  refine ⟨rfl, rfl, rfl, ?_, by simp [onTouchMove], ?_, rfl⟩
  · simp [onTouchMove, List.countP_eq_zero]
  · exact (List.nodup_range st.recognizers.length).map
      (fun a b hab => by injection hab)
